import Mathlib

/-
Verification of the editing/validation logic of `MaterialSiteEditor`
(src/hexrd/ui/material_site_editor.py).

Modelling conventions:
* Python floats are modelled as exact rationals (`ℚ`); the numeric claims
  here are robust to rounding (they hold or fail by large margins).
* The site dictionary becomes the `Site` structure; the per-row spin-box
  contents that `update_config` reads back become the `UiState` structure.
* Code that raises becomes `Except EditorError`; the Qt signal
  `site_modified` becomes a `Bool` result ("an emission happened").
-/

set_option autoImplicit false

namespace HexrdGui

/-- Rational stand-in for the 64-bit float value of `np.pi` used by the
source module (decimal rendering of the double; the residual error of the
double itself is irrelevant to every property proved below). -/
def np_pi : ℚ := 3.141592653589793

/-- Source constant `U_TO_B = 8 * np.pi ** 2`. -/
def U_TO_B : ℚ := 8 * np_pi ^ 2

/-- Source constant `B_TO_U = 1 / U_TO_B`. -/
def B_TO_U : ℚ := 1 / U_TO_B

/-- Modelled from the spec: `DEFAULT_U = Material.DFLT_U[0]` is a fixed
material-default U value imported from the external `hexrd.material`
module, which is not part of this repository.  The spec treats it as an
injected configuration constant; its numeric value is never used by any
claim, so it is fixed here to an arbitrary rational. -/
def DEFAULT_U : ℚ := 33 / 500

/-- One atom row of a site: `{'symbol': ..., 'occupancy': ..., 'U': ...}`. -/
structure Atom where
  symbol : String
  occupancy : ℚ
  U : ℚ
  deriving DecidableEq

/-- The site dictionary owned by the caller: `total_occupancy`,
`fractional_coords` (three entries) and the ordered `atoms` list. -/
structure Site where
  total_occupancy : ℚ
  fractional_coords : ℚ × ℚ × ℚ
  atoms : List Atom
  deriving DecidableEq

/-- The widget values `update_config` reads back: the thermal-factor type
combo box text, the `total_occupancy` spin box, the three fractional
coordinate spin boxes, and the two per-row spin-box columns. -/
structure UiState where
  thermal_factor_type : String
  total_occupancy : ℚ
  coords : ℚ × ℚ × ℚ
  occupancy_values : List ℚ
  thermal_factor_values : List ℚ
  deriving DecidableEq

/-- The failures the spec names for this component. -/
inductive EditorError where
  | UnknownUnitType
  | IndexOutOfRange
  deriving DecidableEq

/-- Method `U(self, val)`: convert a spin-box value in the current display
convention to a U value (multiplier 1 for "U", `B_TO_U` for "B"); raises
on an unknown convention. -/
def U (ty : String) (val : ℚ) : Except EditorError ℚ :=
  if ty = "U" then Except.ok (val * 1)
  else if ty = "B" then Except.ok (val * B_TO_U)
  else Except.error EditorError.UnknownUnitType

/-- Method `B(self, val)`: convert a spin-box value in the current display
convention to a B value (multiplier `U_TO_B` for "U", 1 for "B"); raises
on an unknown convention. -/
def B (ty : String) (val : ℚ) : Except EditorError ℚ :=
  if ty = "U" then Except.ok (val * U_TO_B)
  else if ty = "B" then Except.ok (val * 1)
  else Except.error EditorError.UnknownUnitType

/-- Method `thermal_factor(self, atom)`: the display value of an atom's
stored `U` in the current display convention (multiplier 1 for "U",
`U_TO_B` for "B"); raises on an unknown convention. -/
def thermal_factor (ty : String) (atom : Atom) : Except EditorError ℚ :=
  if ty = "U" then Except.ok (atom.U * 1)
  else if ty = "B" then Except.ok (atom.U * U_TO_B)
  else Except.error EditorError.UnknownUnitType

/-- Property `atom_types`: the ordered list of atom symbols. -/
def atom_types (site : Site) : List String :=
  site.atoms.map Atom.symbol

/-- Python `sum(x['occupancy'] for x in self.atoms)` (a left fold from 0). -/
def occupancy_sum (site : Site) : ℚ :=
  site.atoms.foldl (fun acc x => acc + x.occupancy) 0

/-- Property `occupancies_valid`: sum of occupancies matches
`total_occupancy` within `tol = 1.e-6`. -/
def occupancies_valid (site : Site) : Bool :=
  decide (|occupancy_sum site - site.total_occupancy| < (1e-6 : ℚ))

/-- Property `site_valid` (delegates to `occupancies_valid`). -/
def site_valid (site : Site) : Bool :=
  occupancies_valid site

/-- Method `emit_site_modified_if_valid`: returns whether the
`site_modified` signal is emitted (it is emitted exactly once when the
site is valid, and not at all otherwise). -/
def emit_site_modified_if_valid (site : Site) : Bool :=
  site_valid site

/-- Method `reset_occupancies`: every atom's occupancy becomes
`total_occupancy / len(atoms)`.  The division sits inside the per-atom
loop in the source, so on an empty atom list it is never evaluated. -/
def reset_occupancies (site : Site) : Site :=
  let total := site.total_occupancy
  let num_atoms : ℚ := site.atoms.length
  { site with
    atoms := site.atoms.map fun atom => { atom with occupancy := total / num_atoms } }

/-- Setter `atom_types`: no-op when the symbols are unchanged, otherwise
rebuild the atom list and reset occupancies, then emit `site_modified`
if the result is valid.  The source's fresh atom dicts carry no
occupancy key until `reset_occupancies` writes one; the placeholder 0 is
overwritten for every atom. -/
def set_atom_types (site : Site) (v : List String) : Site × Bool :=
  if v = atom_types site then
    (site, false)
  else
    let cleared : Site :=
      { site with atoms := v.map fun x => { symbol := x, occupancy := 0, U := DEFAULT_U } }
    let site' := reset_occupancies cleared
    (site', emit_site_modified_if_valid site')

/-- The loop `for atom, spinbox in zip(self.atoms, self.occupancy_spinboxes)`:
pairs are consumed while both lists last; leftover atoms keep their
occupancy, leftover values are dropped. -/
def write_occupancies : List Atom → List ℚ → List Atom
  | atom :: atoms, v :: vs => { atom with occupancy := v } :: write_occupancies atoms vs
  | atoms, [] => atoms
  | [], _ :: _ => []

/-- The loop `for atom, spinbox in zip(self.atoms, self.thermal_factor_spinboxes)`:
each paired value is converted with `U` before being stored; a conversion
failure propagates out of the loop. -/
def write_thermal_factors (ty : String) : List Atom → List ℚ → Except EditorError (List Atom)
  | atom :: atoms, v :: vs =>
    match U ty v with
    | Except.error e => Except.error e
    | Except.ok u =>
      match write_thermal_factors ty atoms vs with
      | Except.error e => Except.error e
      | Except.ok rest => Except.ok ({ atom with U := u } :: rest)
  | atoms, [] => Except.ok atoms
  | [], _ :: _ => Except.ok []

/-- Method `update_config`: write every widget value back into the site
(total occupancy, the three coordinates, the zipped occupancy column,
the zipped thermal-factor column converted to U), then emit
`site_modified` if the result is valid.  A conversion failure propagates
uncaught. -/
def update_config (site : Site) (ui : UiState) : Except EditorError (Site × Bool) :=
  let s1 : Site :=
    { site with total_occupancy := ui.total_occupancy, fractional_coords := ui.coords }
  let atoms1 := write_occupancies s1.atoms ui.occupancy_values
  match write_thermal_factors ui.thermal_factor_type atoms1 ui.thermal_factor_values with
  | Except.error e => Except.error e
  | Except.ok atoms2 =>
    let s2 : Site := { s1 with atoms := atoms2 }
    Except.ok (s2, emit_site_modified_if_valid s2)

/-- A sequence of user edits, each one an `update_config` round trip;
returns the final site together with the per-edit trace of
(resulting site, whether `site_modified` was emitted). -/
def edits_trace : Site → List UiState → Except EditorError (Site × List (Site × Bool))
  | s, [] => Except.ok (s, [])
  | s, u :: us =>
    match update_config s u with
    | Except.error e => Except.error e
    | Except.ok (s1, b) =>
      match edits_trace s1 us with
      | Except.error e => Except.error e
      | Except.ok (sf, tr) => Except.ok (sf, (s1, b) :: tr)

/-- Unfolding lemma for `update_config` (zeta/iota normal form). -/
theorem update_config_eq (site : Site) (ui : UiState) :
    update_config site ui =
      match write_thermal_factors ui.thermal_factor_type
          (write_occupancies site.atoms ui.occupancy_values) ui.thermal_factor_values with
      | Except.error e => Except.error e
      | Except.ok atoms2 =>
        Except.ok
          ({ total_occupancy := ui.total_occupancy, fractional_coords := ui.coords,
             atoms := atoms2 },
           emit_site_modified_if_valid
             { total_occupancy := ui.total_occupancy, fractional_coords := ui.coords,
               atoms := atoms2 }) :=
  rfl

/-- A successful `update_config` reports an emission exactly when the
resulting site is valid. -/
theorem update_config_ok_emit (s : Site) (ui : UiState) (s' : Site) (b : Bool)
    (h : update_config s ui = Except.ok (s', b)) : b = occupancies_valid s' := by
  rw [update_config_eq] at h
  cases hw : write_thermal_factors ui.thermal_factor_type
      (write_occupancies s.atoms ui.occupancy_values) ui.thermal_factor_values with
  | error e =>
    rw [hw] at h
    simp at h
  | ok atoms2 =>
    rw [hw] at h
    simp only [Except.ok.injEq, Prod.mk.injEq] at h
    obtain ⟨h1, h2⟩ := h
    subst h1
    subst h2
    rfl

/-- Every entry of an edit trace records an emission exactly when its
recorded site is valid. -/
theorem edits_trace_emit_eq (edits : List UiState) :
    ∀ (s sf : Site) (tr : List (Site × Bool)),
      edits_trace s edits = Except.ok (sf, tr) →
      ∀ p ∈ tr, p.2 = occupancies_valid p.1 := by
  induction edits with
  | nil =>
    intro s sf tr h
    simp only [edits_trace, Except.ok.injEq, Prod.mk.injEq] at h
    obtain ⟨_, htr⟩ := h
    subst htr
    intro p hp
    cases hp
  | cons u us ih =>
    intro s sf tr h
    unfold edits_trace at h
    cases hu : update_config s u with
    | error e =>
      rw [hu] at h
      simp at h
    | ok p1 =>
      obtain ⟨s1, b⟩ := p1
      simp only [hu] at h
      cases ht : edits_trace s1 us with
      | error e =>
        simp only [ht] at h
        exact Except.noConfusion h
      | ok q =>
        obtain ⟨sf1, tr1⟩ := q
        simp only [ht, Except.ok.injEq, Prod.mk.injEq] at h
        obtain ⟨hsf, htr⟩ := h
        subst htr
        intro p hp
        rcases List.mem_cons.mp hp with hp1 | hp2
        · subst hp1
          exact update_config_ok_emit s u s1 b hu
        · exact ih s1 sf1 tr1 ht p hp2

/-- Left fold that accumulates occupancies equals the sum of the mapped
occupancies shifted by the accumulator. -/
theorem occ_foldl_eq (l : List Atom) (a : ℚ) :
    l.foldl (fun acc x => acc + x.occupancy) a = a + (l.map Atom.occupancy).sum := by
  induction l generalizing a with
  | nil => simp
  | cons x xs ih => simp [ih, add_assoc]

/-- C1 as written fails on the code: with the display type fixed to "B"
both for `toB` and `toU`, `toB` is the identity and `toU` multiplies by
`1/(8 pi^2)`, so the composite shrinks the value; dually with "U" fixed,
`toU` is the identity and `toB` multiplies by `8 pi^2`.  Evaluated at the
finite value x = 1. -/
theorem thermal_roundtrip_same_convention_fails :
    (B "B" 1).bind (fun y => U "B" y) ≠ Except.ok 1 ∧
    (U "U" 1).bind (fun y => B "U" y) ≠ Except.ok 1 := by
  constructor
  · simp [B, U, Except.bind]
    norm_num [B_TO_U, U_TO_B, np_pi]
  · simp [B, U, Except.bind]
    norm_num [B_TO_U, U_TO_B, np_pi]

/-- C1 (amended): the conversion round-trips hold exactly when the two
calls name the convention the value is currently in: converting a
U-display value to B and reading it back (`toU(toB(x,"U"),"B") = x`), and
converting a B-display value to U and reading it back
(`toB(toU(x,"B"),"U") = x`); `toU` multiplies by `1/(8 pi^2)` on display
type "B" and `toB` multiplies by `8 pi^2` on display type "U".  The
rational model makes the round trip exact, hence within any floating
tolerance. -/
theorem thermal_roundtrip_cross_convention (x : ℚ) :
    (B "U" x).bind (fun y => U "B" y) = Except.ok x ∧
    (U "B" x).bind (fun y => B "U" y) = Except.ok x := by
  have key : U_TO_B * B_TO_U = 1 := by norm_num [U_TO_B, B_TO_U, np_pi]
  constructor
  · simp [B, U, Except.bind]
    rw [mul_assoc, key, mul_one]
  · simp [B, U, Except.bind]
    rw [mul_assoc, mul_comm B_TO_U U_TO_B, key, mul_one]

/-- C3: the occupancy validator accepts exactly when the absolute
difference between the sum of the atoms' occupancies and the site's
total occupancy is strictly below the tolerance `1e-6`. -/
theorem occupancies_valid_iff_abs_lt_tol (site : Site) :
    occupancies_valid site = true ↔
      |(site.atoms.map Atom.occupancy).sum - site.total_occupancy| < (1e-6 : ℚ) := by
  unfold occupancies_valid occupancy_sum
  rw [occ_foldl_eq, zero_add]
  simp

/-- C5 as written fails on the code: on a site with no atoms the
per-atom loop of `reset_occupancies` never runs, so the division by
`len(atoms) = 0` is never evaluated, no occupancy value (NaN or
otherwise) is produced, and the site is returned entirely unchanged. -/
theorem reset_occupancies_empty_counterexample :
    reset_occupancies
        { total_occupancy := 1, fractional_coords := (0, 0, 0), atoms := [] } =
      { total_occupancy := 1, fractional_coords := (0, 0, 0), atoms := [] } ∧
    (reset_occupancies
        { total_occupancy := 1, fractional_coords := (0, 0, 0), atoms := [] }).atoms = [] :=
  ⟨rfl, rfl⟩

/-- C5 (amended): for every site whose atoms sequence is empty,
`reset_occupancies` is a silent no-op: the division sits inside the
per-atom loop, so it is never performed, no occupancy values are
produced, no error is raised, and the site is unchanged. -/
theorem reset_occupancies_empty_noop (site : Site) (h : site.atoms = []) :
    reset_occupancies site = site := by
  obtain ⟨t, c, a⟩ := site
  replace h : a = [] := h
  subst h
  rfl

theorem reset_occupancies_empty_noop_witness :
    reset_occupancies { total_occupancy := 2, fractional_coords := (1, 0, 0), atoms := [] } =
      { total_occupancy := 2, fractional_coords := (1, 0, 0), atoms := [] } :=
  reset_occupancies_empty_noop
    { total_occupancy := 2, fractional_coords := (1, 0, 0), atoms := [] } rfl

/-- C6: setting the atom types to the current (order-sensitive) symbol
list is a no-op: the site — atoms, occupancies and U values included —
is unchanged and no `site_modified` notification is emitted. -/
theorem set_atom_types_same_symbols_noop (site : Site) (v : List String)
    (h : v = atom_types site) :
    set_atom_types site v = (site, false) := by
  unfold set_atom_types
  rw [if_pos h]

theorem set_atom_types_same_symbols_noop_witness :
    set_atom_types
        { total_occupancy := 1, fractional_coords := (0, 0, 0),
          atoms := [{ symbol := "Fe", occupancy := 1, U := 0 }] } ["Fe"] =
      ({ total_occupancy := 1, fractional_coords := (0, 0, 0),
         atoms := [{ symbol := "Fe", occupancy := 1, U := 0 }] }, false) :=
  set_atom_types_same_symbols_noop
    { total_occupancy := 1, fractional_coords := (0, 0, 0),
      atoms := [{ symbol := "Fe", occupancy := 1, U := 0 }] } ["Fe"] rfl

/-- C8: the display value of an atom's thermal factor is the stored U
unchanged under display type "U" and `U * 8 pi^2` under display type
"B"; U is the canonical stored unit and B purely derived. -/
theorem thermal_factor_display_value (atom : Atom) :
    thermal_factor "U" atom = Except.ok atom.U ∧
    thermal_factor "B" atom = Except.ok (atom.U * U_TO_B) := by
  constructor <;> simp [thermal_factor]

/-- C9: on a display convention that is neither "U" nor "B", all three
conversion operations surface `UnknownUnitType` as their uncaught
result. -/
theorem unknown_display_type_errors (ty : String) (val : ℚ) (atom : Atom)
    (h1 : ty ≠ "U") (h2 : ty ≠ "B") :
    U ty val = Except.error EditorError.UnknownUnitType ∧
    B ty val = Except.error EditorError.UnknownUnitType ∧
    thermal_factor ty atom = Except.error EditorError.UnknownUnitType := by
  refine ⟨?_, ?_, ?_⟩ <;> simp [U, B, thermal_factor, h1, h2]

theorem unknown_display_type_errors_witness :
    U "X" 1 = Except.error EditorError.UnknownUnitType ∧
    B "X" 1 = Except.error EditorError.UnknownUnitType ∧
    thermal_factor "X" { symbol := "Fe", occupancy := 1, U := 1 } =
      Except.error EditorError.UnknownUnitType :=
  unknown_display_type_errors "X" 1 { symbol := "Fe", occupancy := 1, U := 1 }
    (by decide) (by decide)

/-- C10: replacing the atom types with a differing symbol list mutates
only the atoms sequence; the site's total occupancy and all three
fractional coordinates are unchanged. -/
theorem set_atom_types_preserves_site_fields (site : Site) (v : List String)
    (h : v ≠ atom_types site) :
    (set_atom_types site v).1.total_occupancy = site.total_occupancy ∧
    (set_atom_types site v).1.fractional_coords = site.fractional_coords := by
  unfold set_atom_types
  rw [if_neg h]
  exact ⟨rfl, rfl⟩

theorem set_atom_types_preserves_site_fields_witness :
    (set_atom_types
        { total_occupancy := 5, fractional_coords := (1, 2, 3), atoms := [] }
        ["O"]).1.total_occupancy =
      (5 : ℚ) ∧
    (set_atom_types
        { total_occupancy := 5, fractional_coords := (1, 2, 3), atoms := [] }
        ["O"]).1.fractional_coords =
      ((1 : ℚ), (2 : ℚ), (3 : ℚ)) :=
  set_atom_types_preserves_site_fields
    { total_occupancy := 5, fractional_coords := (1, 2, 3), atoms := [] }
    ["O"] (by decide)

/-- C2: along an edit sequence whose every write-back leaves the
occupancy sum off the total by at least the tolerance, no `site_modified`
notification is emitted (every trace entry records `false`) even though
each write-back mutated the model; a subsequent edit whose result is
back within tolerance emits exactly one notification. -/
theorem invalid_edits_suppress_site_modified
    (s sf : Site) (edits : List UiState) (tr : List (Site × Bool))
    (h : edits_trace s edits = Except.ok (sf, tr))
    (hinv : ∀ p ∈ tr, occupancies_valid p.1 = false)
    (u : UiState) (s2 : Site) (b : Bool)
    (h2 : update_config sf u = Except.ok (s2, b))
    (hval : occupancies_valid s2 = true) :
    (∀ p ∈ tr, p.2 = false) ∧ b = true := by
  constructor
  · intro p hp
    rw [edits_trace_emit_eq edits s sf tr h p hp]
    exact hinv p hp
  · rw [update_config_ok_emit sf u s2 b h2]
    exact hval

theorem invalid_edits_suppress_site_modified_witness :
    (∀ p ∈ [(({ total_occupancy := 1, fractional_coords := (0, 0, 0),
                atoms := [{ symbol := "Fe", occupancy := 3, U := 0 }] } : Site), false)],
        Prod.snd p = false) ∧ true = true :=
  invalid_edits_suppress_site_modified
    { total_occupancy := 1, fractional_coords := (0, 0, 0),
      atoms := [{ symbol := "Fe", occupancy := 1, U := 0 }] }
    { total_occupancy := 1, fractional_coords := (0, 0, 0),
      atoms := [{ symbol := "Fe", occupancy := 3, U := 0 }] }
    [{ thermal_factor_type := "U", total_occupancy := 1, coords := (0, 0, 0),
       occupancy_values := [3], thermal_factor_values := [] }]
    [({ total_occupancy := 1, fractional_coords := (0, 0, 0),
        atoms := [{ symbol := "Fe", occupancy := 3, U := 0 }] }, false)]
    (by
      simp [edits_trace, update_config_eq, write_occupancies, write_thermal_factors,
        emit_site_modified_if_valid, site_valid, occupancies_valid, occupancy_sum]
      norm_num)
    (by
      intro p hp
      simp only [List.mem_singleton] at hp
      subst hp
      simp [occupancies_valid, occupancy_sum]
      norm_num)
    { thermal_factor_type := "U", total_occupancy := 1, coords := (0, 0, 0),
      occupancy_values := [1], thermal_factor_values := [] }
    { total_occupancy := 1, fractional_coords := (0, 0, 0),
      atoms := [{ symbol := "Fe", occupancy := 1, U := 0 }] }
    true
    (by
      rw [update_config_eq]
      simp [write_occupancies, write_thermal_factors,
        emit_site_modified_if_valid, site_valid, occupancies_valid, occupancy_sum]
      norm_num)
    (by
      simp [occupancies_valid, occupancy_sum]
      norm_num)

/-- The occupancy write-back never changes the number of atoms. -/
theorem write_occupancies_length (atoms : List Atom) (vs : List ℚ) :
    (write_occupancies atoms vs).length = atoms.length := by
  induction atoms generalizing vs with
  | nil => cases vs <;> rfl
  | cons a as ih =>
    cases vs with
    | nil => rfl
    | cons v vs' => simp [write_occupancies, ih]

/-- With a recognized display type, the thermal-factor write-back always
succeeds and never changes the number of atoms. -/
theorem write_thermal_factors_ok (ty : String) (atoms : List Atom) (vs : List ℚ)
    (hty : ty = "U" ∨ ty = "B") :
    ∃ atoms2, write_thermal_factors ty atoms vs = Except.ok atoms2 ∧
      atoms2.length = atoms.length := by
  induction atoms generalizing vs with
  | nil =>
    cases vs with
    | nil => exact ⟨[], rfl, rfl⟩
    | cons v vs' => exact ⟨[], rfl, rfl⟩
  | cons a as ih =>
    cases vs with
    | nil => exact ⟨a :: as, rfl, rfl⟩
    | cons v vs' =>
      obtain ⟨rest, hrest, hlen⟩ := ih vs'
      have hU : ∃ u, U ty v = Except.ok u := by
        rcases hty with hh | hh
        · subst hh
          exact ⟨v * 1, by simp [U]⟩
        · subst hh
          exact ⟨v * B_TO_U, by simp [U]⟩
      obtain ⟨u, hu⟩ := hU
      exact ⟨{ a with U := u } :: rest,
        by simp [write_thermal_factors, hu, hrest], by simp [hlen]⟩

/-- C4 as written fails on the code: there is no per-index setter and no
`IndexOutOfRange` failure.  On a one-atom site, an edit carrying a value
for the nonexistent row 1 succeeds: the zip-based write-back silently
drops the out-of-range value 7 while still writing the in-range value 2
into the model. -/
theorem update_config_out_of_range_counterexample :
    update_config
        { total_occupancy := 1, fractional_coords := (0, 0, 0),
          atoms := [{ symbol := "Fe", occupancy := 1, U := 0 }] }
        { thermal_factor_type := "U", total_occupancy := 1, coords := (0, 0, 0),
          occupancy_values := [2, 7], thermal_factor_values := [] } =
      Except.ok
        ({ total_occupancy := 1, fractional_coords := (0, 0, 0),
           atoms := [{ symbol := "Fe", occupancy := 2, U := 0 }] }, false) ∧
    (Except.ok
        ({ total_occupancy := 1, fractional_coords := (0, 0, 0),
           atoms := [{ symbol := "Fe", occupancy := 2, U := 0 }] }, false) :
      Except EditorError (Site × Bool)) ≠
      Except.error EditorError.IndexOutOfRange := by
  constructor
  · rw [update_config_eq]
    simp [write_occupancies, write_thermal_factors,
      emit_site_modified_if_valid, site_valid, occupancies_valid, occupancy_sum]
    norm_num
  · simp

/-- C4 (amended): an edit whose value lists run past the end of the
atoms sequence does not fail with `IndexOutOfRange` (for a recognized
display type the write-back succeeds outright); the values at
out-of-range indices are silently dropped and the atoms sequence keeps
its length, so nonexistent rows are left unmodified. -/
theorem update_config_never_index_error (site : Site) (ui : UiState)
    (hty : ui.thermal_factor_type = "U" ∨ ui.thermal_factor_type = "B") :
    ∃ s2 b, update_config site ui = Except.ok (s2, b) ∧
      s2.atoms.length = site.atoms.length := by
  obtain ⟨atoms2, h2, hlen⟩ := write_thermal_factors_ok ui.thermal_factor_type
    (write_occupancies site.atoms ui.occupancy_values) ui.thermal_factor_values hty
  refine ⟨{ total_occupancy := ui.total_occupancy, fractional_coords := ui.coords,
            atoms := atoms2 },
          emit_site_modified_if_valid
            { total_occupancy := ui.total_occupancy, fractional_coords := ui.coords,
              atoms := atoms2 }, ?_, ?_⟩
  · rw [update_config_eq, h2]
  · rw [hlen]
    exact write_occupancies_length site.atoms ui.occupancy_values

theorem update_config_never_index_error_witness :
    ∃ s2 b,
      update_config
          { total_occupancy := 1, fractional_coords := (0, 0, 0),
            atoms := [{ symbol := "Fe", occupancy := 1, U := 0 }] }
          { thermal_factor_type := "U", total_occupancy := 1, coords := (0, 0, 0),
            occupancy_values := [2, 7], thermal_factor_values := [] } =
        Except.ok (s2, b) ∧
      s2.atoms.length =
        ({ total_occupancy := 1, fractional_coords := (0, 0, 0),
           atoms := [{ symbol := "Fe", occupancy := 1, U := 0 }] } : Site).atoms.length :=
  update_config_never_index_error
    { total_occupancy := 1, fractional_coords := (0, 0, 0),
      atoms := [{ symbol := "Fe", occupancy := 1, U := 0 }] }
    { thermal_factor_type := "U", total_occupancy := 1, coords := (0, 0, 0),
      occupancy_values := [2, 7], thermal_factor_values := [] }
    (Or.inl rfl)

/-- C7: setting the atom types to a symbol list differing from the
current one replaces the atoms with exactly one fresh atom per symbol in
order, each with the material-default U, and then distributes the total
occupancy uniformly: every new atom's occupancy is
`total_occupancy / len(symbols)`. -/
theorem set_atom_types_new_symbols_resets (site : Site) (v : List String)
    (h : v ≠ atom_types site) :
    (set_atom_types site v).1.atoms =
      v.map fun x =>
        { symbol := x, occupancy := site.total_occupancy / (v.length : ℚ),
          U := DEFAULT_U } := by
  unfold set_atom_types
  rw [if_neg h]
  unfold reset_occupancies
  simp [List.map_map]

theorem set_atom_types_new_symbols_resets_witness :
    (set_atom_types
        { total_occupancy := 1, fractional_coords := (0, 0, 0), atoms := [] }
        ["Fe", "O"]).1.atoms =
      [{ symbol := "Fe", occupancy := 1 / 2, U := DEFAULT_U },
       { symbol := "O", occupancy := 1 / 2, U := DEFAULT_U }] := by
  rw [set_atom_types_new_symbols_resets
    { total_occupancy := 1, fractional_coords := (0, 0, 0), atoms := [] }
    ["Fe", "O"] (by decide)]
  norm_num

end HexrdGui
